import Mathlib

/-!
Verification of the Adaptive Runtime Governor of the Sarah repository.

The Rust sources under `src-tauri/src/services` are shallowly embedded:
`f64`/`f32` values are modelled as exact rationals (`ℚ`), `usize`/`u64` as
`ℕ`, `i64` as `ℤ`, and Rust's `f64::round` (round half away from zero,
applied only to nonnegative values here) as `roundQ`.  All definitions are
executable and follow the corresponding Rust function bodies clause by
clause.
-/

/-- Round a nonnegative rational the way Rust's `x.round() as usize` does:
half-up, then truncated to a natural number. -/
def roundQ (x : ℚ) : ℕ := (⌊x + 1/2⌋).toNat

/-- Embedding of `db::models::LiveSystemStats` (the fields read by the
governor: cpu percentage, memory used / total in MB). -/
structure LiveSystemStats where
  cpu_usage_pct : ℚ
  memory_used_mb : ℕ
  memory_total_mb : ℕ
deriving Repr, DecidableEq

/-- Embedding of `db::models::RuntimePolicy`. -/
structure RuntimePolicy where
  pressure_cpu_pct : ℚ
  pressure_memory_pct : ℚ
  interactive_max_tokens : ℕ
  background_max_tokens : ℕ
  interactive_max_concurrency : ℕ
  background_max_concurrency : ℕ
  retrieval_candidate_limit : ℕ
  defer_background_under_pressure : Bool
deriving Repr, DecidableEq

/-- Embedding of `impl Default for RuntimePolicy` in `db/models.rs`. -/
def defaultRuntimePolicy : RuntimePolicy where
  pressure_cpu_pct := 82
  pressure_memory_pct := 85
  interactive_max_tokens := 640
  background_max_tokens := 256
  interactive_max_concurrency := 1
  background_max_concurrency := 1
  retrieval_candidate_limit := 36
  defer_background_under_pressure := true

/-- Embedding of `db::models::GenerationOptions`. -/
structure GenerationOptions where
  temperature : ℚ
  top_p : ℚ
  max_tokens : ℕ
deriving Repr, DecidableEq

/-- Embedding of `impl Default for GenerationOptions`. -/
def defaultGenerationOptions : GenerationOptions where
  temperature := 2/10
  top_p := 95/100
  max_tokens := 512

/-- Memory percentage as computed at the top of
`RuntimeGovernorService::classify_pressure`: zero when the total is zero,
otherwise `used / total * 100`. -/
def memPct (stats : LiveSystemStats) : ℚ :=
  if stats.memory_total_mb = 0 then 0
  else ((stats.memory_used_mb : ℚ) / (stats.memory_total_mb : ℚ)) * 100

/-- Embedding of `RuntimeGovernorService::classify_pressure`
(runtime_governor_service.rs, lines 112-130). -/
def classify_pressure (stats : LiveSystemStats) (policy : RuntimePolicy) : String :=
  if stats.cpu_usage_pct ≥ 95 ∨ memPct stats ≥ 93 then "critical"
  else if stats.cpu_usage_pct ≥ policy.pressure_cpu_pct ∨
      memPct stats ≥ policy.pressure_memory_pct then "high"
  else if stats.cpu_usage_pct ≥ 70 ∨ memPct stats ≥ 75 then "warm"
  else "normal"

/-- The qos factor used by `tune_generation`: fast = 0.72,
max_quality = 1.20, anything else 1.0. -/
def qos_factor (qos : String) : ℚ :=
  if qos = "fast" then 72/100
  else if qos = "max_quality" then 120/100
  else 1

/-- The pressure factor used by `tune_generation`: critical = 0.40,
high = 0.60, warm = 0.85, anything else 1.0. -/
def pressure_factor_tune (pressure : String) : ℚ :=
  if pressure = "critical" then 40/100
  else if pressure = "high" then 60/100
  else if pressure = "warm" then 85/100
  else 1

/-- Embedding of `RuntimeGovernorService::tune_generation`
(runtime_governor_service.rs, lines 132-168). -/
def tune_generation (base : GenerationOptions) (policy : RuntimePolicy)
    (qos pressure : String) (is_background : Bool) : GenerationOptions :=
  let lane_cap := if is_background then policy.background_max_tokens
    else policy.interactive_max_tokens
  let budget := roundQ ((lane_cap : ℚ) * qos_factor qos * pressure_factor_tune pressure)
  { base with
    max_tokens := Nat.min (Nat.min base.max_tokens lane_cap) (Nat.max budget 96)
    temperature := if qos = "fast" then 1/10 else base.temperature }

/-- Embedding of `hardware_service::DeviceTier`. -/
inductive DeviceTier where
  | Ultra
  | High
  | Medium
  | Low
  | Minimal
  | Potato
deriving Repr, DecidableEq

/-- Embedding of `runtime_orchestrator_service::ServiceBudget`. -/
structure ServiceBudget where
  interactive_max_tokens : ℕ
  background_max_tokens : ℕ
  retrieval_candidate_limit : ℕ
  interactive_max_concurrency : ℕ
  background_max_concurrency : ℕ
deriving Repr, DecidableEq

/-- The dynamic free-RAM token ceiling of `compute_budget`:
`512 + (free_ram_mb / 1024) * 100`. -/
def dynamic_max_tokens (free_ram_mb : ℕ) : ℕ := 512 + (free_ram_mb / 1024) * 100

/-- The fixed per-tier budget table inside
`RuntimeOrchestratorService::compute_budget` (lines 259-302). -/
def tier_budget (tier : DeviceTier) (dyn : ℕ) : ServiceBudget :=
  match tier with
  | DeviceTier.Potato =>
      { interactive_max_tokens := Nat.min dyn 128, background_max_tokens := 64,
        retrieval_candidate_limit := 4, interactive_max_concurrency := 1,
        background_max_concurrency := 1 }
  | DeviceTier.Minimal =>
      { interactive_max_tokens := Nat.min dyn 256, background_max_tokens := 128,
        retrieval_candidate_limit := 12, interactive_max_concurrency := 1,
        background_max_concurrency := 1 }
  | DeviceTier.Low =>
      { interactive_max_tokens := Nat.min dyn 512, background_max_tokens := 192,
        retrieval_candidate_limit := 24, interactive_max_concurrency := 1,
        background_max_concurrency := 1 }
  | DeviceTier.Medium =>
      { interactive_max_tokens := Nat.min dyn 1024, background_max_tokens := 320,
        retrieval_candidate_limit := 48, interactive_max_concurrency := 2,
        background_max_concurrency := 1 }
  | DeviceTier.High =>
      { interactive_max_tokens := Nat.min dyn 4096, background_max_tokens := 1024,
        retrieval_candidate_limit := 96, interactive_max_concurrency := 3,
        background_max_concurrency := 2 }
  | DeviceTier.Ultra =>
      { interactive_max_tokens := Nat.min dyn 16384, background_max_tokens := 4096,
        retrieval_candidate_limit := 256, interactive_max_concurrency := 5,
        background_max_concurrency := 4 }

/-- The pressure factor used by `compute_budget`: critical = 0.5,
high = 0.7, warm = 0.9, anything else 1.0. -/
def pressure_factor_budget (pressure : String) : ℚ :=
  if pressure = "critical" then 50/100
  else if pressure = "high" then 70/100
  else if pressure = "warm" then 90/100
  else 1

/-- The pressure/policy combination step of
`RuntimeOrchestratorService::compute_budget` (lines 304-347), factored over
the tier, the policy, the dynamic free-RAM ceiling and the classified
pressure level. -/
def compute_budget_core (tier : DeviceTier) (policy : RuntimePolicy)
    (free_ram_mb : ℕ) (pressure : String) : ServiceBudget :=
  let tb := tier_budget tier (dynamic_max_tokens free_ram_mb)
  let factor := pressure_factor_budget pressure
  let dynamic_retrieval_limit :=
    if pressure = "critical" then Nat.min tb.retrieval_candidate_limit 3
    else tb.retrieval_candidate_limit
  { interactive_max_tokens :=
      Nat.max (Nat.min (roundQ ((tb.interactive_max_tokens : ℚ) * factor))
        policy.interactive_max_tokens) 96
    background_max_tokens :=
      Nat.max (Nat.min (roundQ ((tb.background_max_tokens : ℚ) * factor))
        policy.background_max_tokens) 64
    retrieval_candidate_limit :=
      Nat.min dynamic_retrieval_limit policy.retrieval_candidate_limit
    interactive_max_concurrency :=
      Nat.max (Nat.min tb.interactive_max_concurrency
        policy.interactive_max_concurrency) 1
    background_max_concurrency :=
      Nat.max (Nat.min tb.background_max_concurrency
        policy.background_max_concurrency) 1 }

/-- Embedding of `RuntimeOrchestratorService::compute_budget` (lines
252-347): free RAM is `memory_total_mb.saturating_sub(memory_used_mb)` and
the pressure level comes from `classify_pressure` on the same stats. -/
def compute_budget (tier : DeviceTier) (policy : RuntimePolicy)
    (stats : LiveSystemStats) : ServiceBudget :=
  compute_budget_core tier policy
    (stats.memory_total_mb - stats.memory_used_mb)
    (classify_pressure stats policy)

/-- Rust's `x.clamp(lo, hi)` on naturals: `none` models the panic raised
when `lo > hi`. -/
def rust_clamp (x lo hi : ℕ) : Option ℕ :=
  if lo ≤ hi then some (Nat.min (Nat.max x lo) hi) else none

/-- The final clamp of `RuntimeOrchestratorService::plan_request` (line
170): `max_tokens.clamp(96, budget.interactive_max_tokens)`. -/
def plan_request_clamp (max_tokens : ℕ) (budget : ServiceBudget) : Option ℕ :=
  rust_clamp max_tokens 96 budget.interactive_max_tokens

/-! ### Basic lemmas about the rounding model -/

theorem roundQ_mono {x y : ℚ} (h : x ≤ y) : roundQ x ≤ roundQ y :=
  Int.toNat_le_toNat (Int.floor_le_floor (by linarith))

theorem roundQ_natCast (n : ℕ) : roundQ (n : ℚ) = n := by
  have h1 : ⌊(n : ℚ) + 1/2⌋ = (n : ℤ) := by
    rw [Int.floor_eq_iff]
    constructor
    · push_cast
      linarith
    · push_cast
      linarith
  rw [roundQ, h1]
  exact Int.toNat_natCast n

theorem roundQ_natCast_le {n m : ℕ} (h : n ≤ m) : roundQ (n : ℚ) ≤ m := by
  rw [roundQ_natCast]
  exact h

/-! ### C3: classify_pressure is total and follows the fixed band order -/

/-- C3: `classify_pressure` always returns exactly one of the four pressure
levels, for every input (including a zero memory total, where the memory
percentage is taken to be 0), and the bands are characterised exactly:
critical iff cpu ≥ 95 or mem% ≥ 93; otherwise high iff cpu/mem% reach the
policy thresholds; otherwise warm iff cpu ≥ 70 or mem% ≥ 75; otherwise
normal.  In particular the critical band strictly dominates the others. -/
theorem C3_classify_pressure_total_and_banded (stats : LiveSystemStats)
    (policy : RuntimePolicy) :
    (classify_pressure stats policy = "critical" ∨
     classify_pressure stats policy = "high" ∨
     classify_pressure stats policy = "warm" ∨
     classify_pressure stats policy = "normal")
  ∧ (classify_pressure stats policy = "critical" ↔
      (stats.cpu_usage_pct ≥ 95 ∨ memPct stats ≥ 93))
  ∧ (classify_pressure stats policy = "high" ↔
      (¬(stats.cpu_usage_pct ≥ 95 ∨ memPct stats ≥ 93) ∧
        (stats.cpu_usage_pct ≥ policy.pressure_cpu_pct ∨
         memPct stats ≥ policy.pressure_memory_pct)))
  ∧ (classify_pressure stats policy = "warm" ↔
      (¬(stats.cpu_usage_pct ≥ 95 ∨ memPct stats ≥ 93) ∧
        ¬(stats.cpu_usage_pct ≥ policy.pressure_cpu_pct ∨
          memPct stats ≥ policy.pressure_memory_pct) ∧
        (stats.cpu_usage_pct ≥ 70 ∨ memPct stats ≥ 75)))
  ∧ (classify_pressure stats policy = "normal" ↔
      (¬(stats.cpu_usage_pct ≥ 95 ∨ memPct stats ≥ 93) ∧
        ¬(stats.cpu_usage_pct ≥ policy.pressure_cpu_pct ∨
          memPct stats ≥ policy.pressure_memory_pct) ∧
        ¬(stats.cpu_usage_pct ≥ 70 ∨ memPct stats ≥ 75))) := by
  unfold classify_pressure
  split_ifs with h1 h2 h3 <;> simp_all

/-! ### C10: compute_budget floors and the plan_request clamp never panics -/

/-- C10: for every tier, policy and live stats, the `ServiceBudget`
returned by `compute_budget` keeps `interactive_max_tokens ≥ 96`,
`background_max_tokens ≥ 64` and both concurrency fields ≥ 1; hence the
`max_tokens.clamp(96, budget.interactive_max_tokens)` expression inside
`plan_request` always has its lower bound ≤ its upper bound and never
panics. -/
theorem C10_budget_floors_and_clamp_safe (tier : DeviceTier)
    (policy : RuntimePolicy) (stats : LiveSystemStats) :
    96 ≤ (compute_budget tier policy stats).interactive_max_tokens
  ∧ 64 ≤ (compute_budget tier policy stats).background_max_tokens
  ∧ 1 ≤ (compute_budget tier policy stats).interactive_max_concurrency
  ∧ 1 ≤ (compute_budget tier policy stats).background_max_concurrency
  ∧ ∀ m : ℕ, (plan_request_clamp m (compute_budget tier policy stats)).isSome := by
  refine ⟨Nat.le_max_right _ _, Nat.le_max_right _ _,
    Nat.le_max_right _ _, Nat.le_max_right _ _, fun m => ?_⟩
  have h96 : 96 ≤ (compute_budget tier policy stats).interactive_max_tokens :=
    Nat.le_max_right _ _
  simp [plan_request_clamp, rust_clamp, h96]

/-! ### C1: policy caps -/

/-- Degenerate policy whose token caps are all zero: representable, since
`get_policy` deserialises arbitrary persisted JSON into `RuntimePolicy`
without re-clamping. -/
def cxPolicy : RuntimePolicy where
  pressure_cpu_pct := 82
  pressure_memory_pct := 85
  interactive_max_tokens := 0
  background_max_tokens := 0
  interactive_max_concurrency := 0
  background_max_concurrency := 0
  retrieval_candidate_limit := 0
  defer_background_under_pressure := true

/-- Idle live stats (no CPU load, no memory reported). -/
def cxStats : LiveSystemStats where
  cpu_usage_pct := 0
  memory_used_mb := 0
  memory_total_mb := 0

/-- C1 counterexample: for the representable policy whose
`interactive_max_tokens` is 0, `compute_budget` returns an
`interactive_max_tokens` of 96 (the post-cap floor `.max(96)` is applied
after the `min` with the policy), strictly above the policy field — so the
claim's bound does not hold for every `RuntimePolicy`. -/
theorem C1_counterexample :
    cxPolicy.interactive_max_tokens <
      (compute_budget DeviceTier.Potato cxPolicy cxStats).interactive_max_tokens := by
  have hp : classify_pressure cxStats cxPolicy = "normal" := by
    norm_num [classify_pressure, memPct, cxStats, cxPolicy]
  have h1 : (compute_budget DeviceTier.Potato cxPolicy cxStats).interactive_max_tokens
      = Nat.max (Nat.min (roundQ (((Nat.min (dynamic_max_tokens 0) 128 : ℕ) : ℚ) *
          pressure_factor_budget "normal")) 0) 96 := by
    simp [compute_budget, compute_budget_core, hp, tier_budget, cxStats, cxPolicy]
  rw [h1]
  simp [cxPolicy]

/-- C1 (amended): `tune_generation` never exceeds the lane's policy cap for
any policy, and every `ServiceBudget` field returned by `compute_budget` is
bounded by the corresponding `RuntimePolicy` field whenever the policy
respects the governor's own clamp floors (`interactive_max_tokens ≥ 96`,
`background_max_tokens ≥ 64`, both concurrency fields ≥ 1), which includes
the default policy and every policy produced by `apply_patch`. -/
theorem C1_policy_is_hard_cap :
    (∀ (base : GenerationOptions) (policy : RuntimePolicy) (qos pressure : String)
      (is_background : Bool),
      (tune_generation base policy qos pressure is_background).max_tokens ≤
        (if is_background then policy.background_max_tokens
         else policy.interactive_max_tokens))
  ∧ (∀ (tier : DeviceTier) (policy : RuntimePolicy) (stats : LiveSystemStats),
      96 ≤ policy.interactive_max_tokens →
      64 ≤ policy.background_max_tokens →
      1 ≤ policy.interactive_max_concurrency →
      1 ≤ policy.background_max_concurrency →
      (compute_budget tier policy stats).interactive_max_tokens ≤
          policy.interactive_max_tokens ∧
      (compute_budget tier policy stats).background_max_tokens ≤
          policy.background_max_tokens ∧
      (compute_budget tier policy stats).retrieval_candidate_limit ≤
          policy.retrieval_candidate_limit ∧
      (compute_budget tier policy stats).interactive_max_concurrency ≤
          policy.interactive_max_concurrency ∧
      (compute_budget tier policy stats).background_max_concurrency ≤
          policy.background_max_concurrency) := by
  constructor
  · intro base policy qos pressure is_background
    have h := Nat.min_le_right base.max_tokens
      (if is_background then policy.background_max_tokens
       else policy.interactive_max_tokens)
    exact le_trans (Nat.min_le_left _ _) h
  · intro tier policy stats h96 h64 hic hbc
    refine ⟨?_, ?_, ?_, ?_, ?_⟩
    · exact Nat.max_le.mpr ⟨Nat.min_le_right _ _, h96⟩
    · exact Nat.max_le.mpr ⟨Nat.min_le_right _ _, h64⟩
    · exact Nat.min_le_right _ _
    · exact Nat.max_le.mpr ⟨Nat.min_le_right _ _, hic⟩
    · exact Nat.max_le.mpr ⟨Nat.min_le_right _ _, hbc⟩

/-- Witness for C1: the amended theorem applied at the default policy. -/
theorem C1_witness :
    (96 ≤ defaultRuntimePolicy.interactive_max_tokens ∧
     64 ≤ defaultRuntimePolicy.background_max_tokens ∧
     1 ≤ defaultRuntimePolicy.interactive_max_concurrency ∧
     1 ≤ defaultRuntimePolicy.background_max_concurrency) ∧
    (tune_generation defaultGenerationOptions defaultRuntimePolicy "fast" "critical"
        false).max_tokens ≤ defaultRuntimePolicy.interactive_max_tokens ∧
    (compute_budget DeviceTier.Potato defaultRuntimePolicy cxStats).interactive_max_tokens
        ≤ defaultRuntimePolicy.interactive_max_tokens :=
  ⟨⟨by decide, by decide, by decide, by decide⟩,
   C1_policy_is_hard_cap.1 defaultGenerationOptions defaultRuntimePolicy "fast" "critical" false,
   (C1_policy_is_hard_cap.2 DeviceTier.Potato defaultRuntimePolicy cxStats (by decide)
      (by decide) (by decide) (by decide)).1⟩

/-! ### C2: monotone degradation under pressure -/

theorem core_interactive_mono (tier : DeviceTier) (policy : RuntimePolicy)
    (free_ram_mb : ℕ) {p q : String}
    (h : pressure_factor_budget p ≤ pressure_factor_budget q) :
    (compute_budget_core tier policy free_ram_mb p).interactive_max_tokens ≤
    (compute_budget_core tier policy free_ram_mb q).interactive_max_tokens := by
  dsimp only [compute_budget_core]
  refine max_le_max (min_le_min (roundQ_mono ?_) le_rfl) le_rfl
  exact mul_le_mul_of_nonneg_left h (by positivity)

theorem core_background_mono (tier : DeviceTier) (policy : RuntimePolicy)
    (free_ram_mb : ℕ) {p q : String}
    (h : pressure_factor_budget p ≤ pressure_factor_budget q) :
    (compute_budget_core tier policy free_ram_mb p).background_max_tokens ≤
    (compute_budget_core tier policy free_ram_mb q).background_max_tokens := by
  dsimp only [compute_budget_core]
  refine max_le_max (min_le_min (roundQ_mono ?_) le_rfl) le_rfl
  exact mul_le_mul_of_nonneg_left h (by positivity)

/-- C2: for a fixed tier, policy and dynamic free-RAM ceiling, the
interactive token budget, the background token budget and the retrieval
candidate limit produced by the pressure/policy combination step of
`compute_budget` are non-increasing along normal → warm → high → critical
(pressure factors 1.0, 0.9, 0.7, 0.5). -/
theorem C2_budget_monotone_in_pressure (tier : DeviceTier) (policy : RuntimePolicy)
    (free_ram_mb : ℕ) :
    ((compute_budget_core tier policy free_ram_mb "warm").interactive_max_tokens ≤
        (compute_budget_core tier policy free_ram_mb "normal").interactive_max_tokens ∧
      (compute_budget_core tier policy free_ram_mb "high").interactive_max_tokens ≤
        (compute_budget_core tier policy free_ram_mb "warm").interactive_max_tokens ∧
      (compute_budget_core tier policy free_ram_mb "critical").interactive_max_tokens ≤
        (compute_budget_core tier policy free_ram_mb "high").interactive_max_tokens)
  ∧ ((compute_budget_core tier policy free_ram_mb "warm").background_max_tokens ≤
        (compute_budget_core tier policy free_ram_mb "normal").background_max_tokens ∧
      (compute_budget_core tier policy free_ram_mb "high").background_max_tokens ≤
        (compute_budget_core tier policy free_ram_mb "warm").background_max_tokens ∧
      (compute_budget_core tier policy free_ram_mb "critical").background_max_tokens ≤
        (compute_budget_core tier policy free_ram_mb "high").background_max_tokens)
  ∧ ((compute_budget_core tier policy free_ram_mb "warm").retrieval_candidate_limit ≤
        (compute_budget_core tier policy free_ram_mb "normal").retrieval_candidate_limit ∧
      (compute_budget_core tier policy free_ram_mb "high").retrieval_candidate_limit ≤
        (compute_budget_core tier policy free_ram_mb "warm").retrieval_candidate_limit ∧
      (compute_budget_core tier policy free_ram_mb "critical").retrieval_candidate_limit ≤
        (compute_budget_core tier policy free_ram_mb "high").retrieval_candidate_limit) := by
  have hn : pressure_factor_budget "normal" = 1 := rfl
  have hw : pressure_factor_budget "warm" = 90/100 := rfl
  have hh : pressure_factor_budget "high" = 70/100 := rfl
  have hc : pressure_factor_budget "critical" = 50/100 := rfl
  have hwn : pressure_factor_budget "warm" ≤ pressure_factor_budget "normal" := by
    rw [hw, hn]
    norm_num
  have hhw : pressure_factor_budget "high" ≤ pressure_factor_budget "warm" := by
    rw [hh, hw]
    norm_num
  have hch : pressure_factor_budget "critical" ≤ pressure_factor_budget "high" := by
    rw [hc, hh]
    norm_num
  refine ⟨⟨core_interactive_mono tier policy free_ram_mb hwn,
           core_interactive_mono tier policy free_ram_mb hhw,
           core_interactive_mono tier policy free_ram_mb hch⟩,
          ⟨core_background_mono tier policy free_ram_mb hwn,
           core_background_mono tier policy free_ram_mb hhw,
           core_background_mono tier policy free_ram_mb hch⟩,
          ?_, ?_, ?_⟩
  · simp [compute_budget_core]
  · simp [compute_budget_core]
  · dsimp only [compute_budget_core]
    simp only [reduceIte]
    exact min_le_min (Nat.min_le_left _ _) le_rfl

/-! ### C7: the fast/critical scenario on the default policy -/

/-- C7: with the default policy (interactive cap 640), qos "fast",
pressure "critical", interactive lane, and a requested max_tokens of at
least 184, `tune_generation` returns exactly
round(640 × 0.72 × 0.40) = 184, not the 96 floor. -/
theorem C7_tune_fast_critical_default (base : GenerationOptions)
    (h : 184 ≤ base.max_tokens) :
    (tune_generation base defaultRuntimePolicy "fast" "critical" false).max_tokens = 184 := by
  have hb : roundQ (((640 : ℕ) : ℚ) * qos_factor "fast" * pressure_factor_tune "critical")
      = 184 := by
    norm_num [qos_factor, pressure_factor_tune, roundQ]
    rfl
  have key : (tune_generation base defaultRuntimePolicy "fast" "critical" false).max_tokens
      = Nat.min (Nat.min base.max_tokens 640)
        (Nat.max (roundQ (((640 : ℕ) : ℚ) * qos_factor "fast" *
          pressure_factor_tune "critical")) 96) := rfl
  rw [key, hb]
  have hm : Nat.max 184 96 = 184 := rfl
  rw [hm]
  exact Nat.min_eq_right (Nat.le_min.mpr ⟨h, by norm_num⟩)

/-- Witness for C7: the default request asks for 512 ≥ 184 tokens and is
tuned down to exactly 184. -/
theorem C7_witness :
    184 ≤ defaultGenerationOptions.max_tokens ∧
    (tune_generation defaultGenerationOptions defaultRuntimePolicy "fast" "critical"
        false).max_tokens = 184 :=
  ⟨by decide, C7_tune_fast_critical_default defaultGenerationOptions (by decide)⟩

/-! ### C4: SystemProfile::classify and the low-RAM scenario -/

/-- Embedding of `db::models::SystemProfile`, restricted to the fields read
by `classify` (hardware_service.rs, lines 42-79).  Integer division on the
`i64` fields only ever occurs with nonnegative operands in the claims
below, where Lean and Rust division agree. -/
structure SystemProfile where
  total_ram_mb : ℤ
  cpu_threads : ℤ
  gpu_vram_mb : Option ℤ
  gpu_backend : Option String
  supports_avx2 : ℤ
  supports_avx512 : ℤ
deriving Repr, DecidableEq

/-- Embedding of `SystemProfile::classify` (hardware_service.rs, lines
43-79): weighted composite score with AVX bonus and a unified-memory VRAM
heuristic, gated by absolute RAM/VRAM floors per tier. -/
def SystemProfile.classify (p : SystemProfile) : DeviceTier :=
  let ram_score : ℚ := min ((p.total_ram_mb : ℚ) / 64000) 1
  let avx_bonus : ℚ :=
    if p.supports_avx512 > 0 then 120/100
    else if p.supports_avx2 > 0 then 105/100
    else 1
  let cpu_score : ℚ := min (min ((p.cpu_threads : ℚ) / 16) 1 * avx_bonus) 1
  let vram0 : ℤ := p.gpu_vram_mb.getD 0
  let vram : ℤ :=
    match p.gpu_backend with
    | some backend =>
        if backend = "metal" ∨ (backend = "cuda" ∧ vram0 = 0) then p.total_ram_mb / 2
        else vram0
    | none => vram0
  let gpu_score : ℚ := min ((vram : ℚ) / 16384) 1
  let total : ℚ :=
    (ram_score * (35/100) + cpu_score * (25/100) + gpu_score * (40/100)) * 100
  let abs_ram_gb : ℤ := p.total_ram_mb / 1024
  if total ≥ 80 ∧ abs_ram_gb ≥ 60 ∧ vram ≥ 15000 then DeviceTier.Ultra
  else if total ≥ 55 ∧ abs_ram_gb ≥ 30 ∧ vram ≥ 7000 then DeviceTier.High
  else if total ≥ 30 ∧ abs_ram_gb ≥ 14 ∧ vram ≥ 3000 then DeviceTier.Medium
  else if abs_ram_gb ≥ 7 then DeviceTier.Low
  else if abs_ram_gb ≥ 3 then DeviceTier.Minimal
  else DeviceTier.Potato

/-- The profile of the claimed scenario: 4096 MB RAM, no VRAM, 4 threads. -/
def c4Profile : SystemProfile where
  total_ram_mb := 4096
  cpu_threads := 4
  gpu_vram_mb := some 0
  gpu_backend := none
  supports_avx2 := 0
  supports_avx512 := 0

/-- C4 counterexample: the 4096 MB / no-GPU / 4-thread profile classifies
as Minimal (4096/1024 = 4 GB ≥ 3), not Potato, so the claimed scenario
fails on its first conjunct. -/
theorem C4_counterexample : SystemProfile.classify c4Profile ≠ DeviceTier.Potato := by
  have h : SystemProfile.classify c4Profile = DeviceTier.Minimal := by
    norm_num [SystemProfile.classify, c4Profile]
  rw [h]
  decide

/-- C4 (amended): every profile with `total_ram_mb = 4096` classifies as
tier Minimal (not Potato), and `compute_budget` under normal pressure for
the Minimal tier returns `interactive_max_tokens ≤ 256` (the Minimal-tier
cap), for every policy and free-RAM ceiling. -/
theorem C4_minimal_tier_scenario (p : SystemProfile) (h : p.total_ram_mb = 4096) :
    SystemProfile.classify p = DeviceTier.Minimal ∧
    ∀ (policy : RuntimePolicy) (free_ram_mb : ℕ),
      (compute_budget_core DeviceTier.Minimal policy free_ram_mb
        "normal").interactive_max_tokens ≤ 256 := by
  constructor
  · norm_num [SystemProfile.classify, h]
  · intro policy free_ram_mb
    have hn : pressure_factor_budget "normal" = 1 := rfl
    dsimp only [compute_budget_core, tier_budget]
    rw [hn, mul_one]
    refine Nat.max_le.mpr ⟨le_trans (Nat.min_le_left _ _) ?_, by norm_num⟩
    exact roundQ_natCast_le (Nat.min_le_right _ _)

/-- Witness for C4: the amended theorem applied to the concrete scenario
profile and the default policy with 8 GB of free RAM. -/
theorem C4_witness :
    SystemProfile.classify c4Profile = DeviceTier.Minimal ∧
    (compute_budget_core DeviceTier.Minimal defaultRuntimePolicy 8192
      "normal").interactive_max_tokens ≤ 256 :=
  ⟨(C4_minimal_tier_scenario c4Profile rfl).1,
   (C4_minimal_tier_scenario c4Profile rfl).2 defaultRuntimePolicy 8192⟩

/-! ### Task Router (task_router_service.rs) -/

/-- ASCII lowercase of a string, modelling Rust's `to_lowercase` on the
ASCII inputs that occur in this development. -/
def lowerStr (s : String) : String := String.mk (s.data.map Char.toLower)

/-- Whitespace trim on both ends, modelling Rust's `str::trim`. -/
def myTrim (s : String) : String :=
  String.mk (((s.data.dropWhile Char.isWhitespace).reverse.dropWhile
    Char.isWhitespace).reverse)

/-- Does the first character list start the second one? -/
def charsLead : List Char → List Char → Bool
  | [], _ => true
  | _ :: _, [] => false
  | a :: as, b :: bs => a == b && charsLead as bs

/-- Does the character list `needle` occur contiguously inside the second
list?  Models Rust's `str::contains` for a string pattern. -/
def charsContain (needle : List Char) : List Char → Bool
  | [] => needle.isEmpty
  | c :: rest => charsLead needle (c :: rest) || charsContain needle rest

/-- Models Rust's `hay.contains(needle)`: `strContains hay needle`. -/
def strContains (hay needle : String) : Bool := charsContain needle.data hay.data

/-- Embedding of `db::models::Model`, restricted to the fields read by the
Task Router (`id`, `display_name`, `context_length`, `performance_tier`,
`is_default`). -/
structure Model where
  id : String
  display_name : String
  context_length : ℤ
  performance_tier : String
  is_default : ℤ
deriving Repr, DecidableEq

/-- Embedding of `db::models::RoutingDecision`. -/
structure RoutingDecision where
  task_type : String
  qos : String
  selected_model_id : Option String
  selected_model_name : Option String
  max_tokens : ℕ
  pressure_level : String
  reason : String
  fallback_chain : List String
deriving Repr, DecidableEq

/-- Embedding of `task_router_service::normalize_task_type`. -/
def normalize_task_type (value : String) : String :=
  let v := lowerStr (myTrim value)
  if v = "chat" ∨ v = "code" ∨ v = "reasoning" ∨ v = "retrieval_heavy" ∨
      v = "tool_heavy" then v
  else "chat"

/-- Embedding of `task_router_service::normalize_qos`. -/
def normalize_qos (value : String) : String :=
  let v := lowerStr (myTrim value)
  if v = "fast" ∨ v = "balanced" ∨ v = "max_quality" then v else "balanced"

/-- Embedding of `task_router_service::infer_task_type`. -/
def infer_task_type (content : String) : String :=
  let q := lowerStr content
  if strContains q "debug" || strContains q "error" ||
      strContains q "stack trace" || strContains q "refactor" then "code"
  else if strContains q "analy" || strContains q "reason" ||
      strContains q "compare" || strContains q "tradeoff" then "reasoning"
  else if strContains q "document" || strContains q "source" ||
      strContains q "citation" then "retrieval_heavy"
  else if strContains q "tool" || strContains q "calendar" ||
      strContains q "spotify" || strContains q "run" then "tool_heavy"
  else "chat"

/-- Embedding of `task_router_service::default_qos`. -/
def default_qos (task_type : String) : String :=
  if task_type = "reasoning" then "max_quality"
  else if task_type = "tool_heavy" then "fast"
  else "balanced"

/-- Embedding of `task_router_service::base_max_tokens`. -/
def base_max_tokens (task_type : String) : ℕ :=
  if task_type = "reasoning" then 1024
  else if task_type = "code" then 768
  else if task_type = "retrieval_heavy" then 640
  else if task_type = "tool_heavy" then 384
  else 512

/-- Rust's `Iterator::max_by_key` on `context_length`: the last maximum is
kept. -/
def lastMaxByCtx (l : List Model) : Option Model :=
  l.foldl (fun acc x =>
    match acc with
    | none => some x
    | some a => if a.context_length ≤ x.context_length then some x else some a) none

/-- Embedding of `task_router_service::select_model` (lines 215-251): the
Rust early returns become option chaining, in the same order. -/
def select_model (installed : List Model) (task_type qos : String) : Option Model :=
  if installed = [] then none
  else
    let step1 : Option Model :=
      if qos = "balanced" ∧ task_type = "chat" then
        installed.find? (fun row => row.is_default == 1)
      else none
    match step1 with
    | some m => some m
    | none =>
      let step2 : Option Model :=
        if qos = "fast" then installed.find? (fun row => row.performance_tier == "fast")
        else none
      match step2 with
      | some m => some m
      | none =>
        let step3 : Option Model :=
          if qos = "max_quality" ∨ task_type = "reasoning" then
            lastMaxByCtx (installed.filter (fun row => row.performance_tier != "fast"))
          else none
        match step3 with
        | some m => some m
        | none =>
          match installed.find? (fun row => row.is_default == 1) with
          | some m => some m
          | none => installed.head?

/-- Embedding of `task_router_service::fallback_chain` (lines 253-260):
all installed models other than the selected one, in list order, capped at
three entries. -/
def fallback_chain (installed : List Model) (selected : Option String) : List String :=
  ((installed.filter (fun row =>
      match selected with
      | some id => id != row.id
      | none => true)).map (fun row => row.id)).take 3

/-- Pure core of `TaskRouterService::route` (lines 29-84), parametrised by
the installed models, the stored policy and the live stats that the Rust
method fetches before the pure computation. -/
def route_decision (installed : List Model) (policy : RuntimePolicy)
    (stats : LiveSystemStats) (content : String)
    (task_type qos : Option String) (is_background : Bool) : RoutingDecision :=
  let task := match task_type with
    | some t => normalize_task_type t
    | none => infer_task_type content
  let requested_qos := match qos with
    | some q => normalize_qos q
    | none => default_qos task
  let pressure := classify_pressure stats policy
  let selected := select_model installed task requested_qos
  let tuned := tune_generation
    { defaultGenerationOptions with max_tokens := base_max_tokens task }
    policy requested_qos pressure is_background
  let chain := fallback_chain installed (selected.map (fun m => m.id))
  { task_type := task
    qos := requested_qos
    selected_model_id := selected.map (fun m => m.id)
    selected_model_name := selected.map (fun m => m.display_name)
    max_tokens := tuned.max_tokens
    pressure_level := pressure
    reason := "task=" ++ task ++ ", qos=" ++ requested_qos ++ ", pressure=" ++
      pressure ++ ", fallback=" ++ toString chain.length
    fallback_chain := chain }

/-- Pure core of `TaskRouterService::preview` (lines 86-124): identical to
`route` except that it never uses the background lane and does not persist
an audit row. -/
def preview_decision (installed : List Model) (policy : RuntimePolicy)
    (stats : LiveSystemStats) (content : String)
    (task_type qos : Option String) : RoutingDecision :=
  let task := match task_type with
    | some t => normalize_task_type t
    | none => infer_task_type content
  let requested_qos := match qos with
    | some q => normalize_qos q
    | none => default_qos task
  let pressure := classify_pressure stats policy
  let selected := select_model installed task requested_qos
  let tuned := tune_generation
    { defaultGenerationOptions with max_tokens := base_max_tokens task }
    policy requested_qos pressure false
  { task_type := task
    qos := requested_qos
    selected_model_id := selected.map (fun m => m.id)
    selected_model_name := selected.map (fun m => m.display_name)
    max_tokens := tuned.max_tokens
    pressure_level := pressure
    reason := "preview"
    fallback_chain := fallback_chain installed (selected.map (fun m => m.id)) }

/-! ### C6 / C9: fallback-chain and empty-registry behaviour -/

theorem not_mem_fallback_chain (installed : List Model) (i : String) :
    i ∉ fallback_chain installed (some i) := by
  intro hmem
  have h1 : i ∈ (installed.filter (fun row => i != row.id)).map (fun row => row.id) :=
    List.take_subset 3 _ hmem
  rcases List.mem_map.mp h1 with ⟨r, hr, hid⟩
  have hp := List.of_mem_filter hr
  rw [bne_iff_ne] at hp
  exact hp hid.symm

theorem fallback_chain_length_le (installed : List Model) (sel : Option String) :
    (fallback_chain installed sel).length ≤ 3 := by
  have := List.length_take 3 ((installed.filter (fun row =>
      match sel with
      | some id => id != row.id
      | none => true)).map (fun row => row.id))
  rw [fallback_chain, this]
  exact min_le_left _ _

theorem fallback_chain_sublist (installed : List Model) (sel : Option String) :
    (fallback_chain installed sel).Sublist (installed.map (fun row => row.id)) := by
  refine List.Sublist.trans (List.take_sublist 3 _) ?_
  exact List.Sublist.map _ (List.filter_sublist installed)

theorem isSome_map_of_isSome {o : Option Model} (f : Model → String)
    (h : o.isSome = true) : (o.map f).isSome = true := by
  cases o with
  | none => exact absurd h (by simp)
  | some m => rfl

theorem select_model_cons_isSome (a : Model) (l : List Model) (t q : String) :
    (select_model (a :: l) t q).isSome = true := by
  unfold select_model
  rw [if_neg (by simp)]
  dsimp only
  split
  · rfl
  · split
    · rfl
    · split
      · rfl
      · split
        · rfl
        · rfl

/-- C6: with at least two installed models, both `route` and `preview`
produce a routing decision whose selection exists, whose fallback chain
never contains the selected model's id, has at most three entries, and is
a sublist of the installed-model ids in their original order. -/
theorem C6_fallback_chain_sound (installed : List Model) (policy : RuntimePolicy)
    (stats : LiveSystemStats) (content : String) (task_type qos : Option String)
    (is_background : Bool) (h2 : 2 ≤ installed.length) :
    ((route_decision installed policy stats content task_type qos
        is_background).selected_model_id.isSome = true ∧
      (∀ i : String,
        (route_decision installed policy stats content task_type qos
          is_background).selected_model_id = some i →
        i ∉ (route_decision installed policy stats content task_type qos
          is_background).fallback_chain) ∧
      (route_decision installed policy stats content task_type qos
        is_background).fallback_chain.length ≤ 3 ∧
      (route_decision installed policy stats content task_type qos
        is_background).fallback_chain.Sublist (installed.map (fun row => row.id)))
  ∧ ((preview_decision installed policy stats content task_type
        qos).selected_model_id.isSome = true ∧
      (∀ i : String,
        (preview_decision installed policy stats content task_type
          qos).selected_model_id = some i →
        i ∉ (preview_decision installed policy stats content task_type
          qos).fallback_chain) ∧
      (preview_decision installed policy stats content task_type
        qos).fallback_chain.length ≤ 3 ∧
      (preview_decision installed policy stats content task_type
        qos).fallback_chain.Sublist (installed.map (fun row => row.id))) := by
  obtain ⟨a, l, rfl⟩ : ∃ a l, installed = a :: l := by
    cases installed with
    | nil => simp at h2
    | cons a l => exact ⟨a, l, rfl⟩
  dsimp only [route_decision, preview_decision]
  refine ⟨⟨?_, ?_, fallback_chain_length_le _ _, fallback_chain_sublist _ _⟩,
          ⟨?_, ?_, fallback_chain_length_le _ _, fallback_chain_sublist _ _⟩⟩
  · exact isSome_map_of_isSome _ (select_model_cons_isSome _ _ _ _)
  · intro i hi
    rcases Option.map_eq_some'.mp hi with ⟨m, hm, hid⟩
    rw [hm]
    subst hid
    exact not_mem_fallback_chain _ _
  · exact isSome_map_of_isSome _ (select_model_cons_isSome _ _ _ _)
  · intro i hi
    rcases Option.map_eq_some'.mp hi with ⟨m, hm, hid⟩
    rw [hm]
    subst hid
    exact not_mem_fallback_chain _ _

/-- First witness model: the marked default. -/
def w1Model : Model where
  id := "model-a"
  display_name := "Model A"
  context_length := 4096
  performance_tier := "balanced"
  is_default := 1

/-- Second witness model: a fast-tier alternative. -/
def w2Model : Model where
  id := "model-b"
  display_name := "Model B"
  context_length := 8192
  performance_tier := "fast"
  is_default := 0

/-- Witness for C6: the routing decision over two installed models selects
the default model and its fallback chain excludes it. -/
theorem C6_witness :
    2 ≤ ([w1Model, w2Model] : List Model).length ∧
    (route_decision [w1Model, w2Model] defaultRuntimePolicy cxStats "hello" none none
      false).selected_model_id = some "model-a" ∧
    "model-a" ∉ (route_decision [w1Model, w2Model] defaultRuntimePolicy cxStats
      "hello" none none false).fallback_chain ∧
    (route_decision [w1Model, w2Model] defaultRuntimePolicy cxStats "hello" none none
      false).fallback_chain.length ≤ 3 :=
  ⟨by decide, by decide,
   (C6_fallback_chain_sound [w1Model, w2Model] defaultRuntimePolicy cxStats "hello"
      none none false (by decide)).1.2.1 "model-a" (by decide),
   (C6_fallback_chain_sound [w1Model, w2Model] defaultRuntimePolicy cxStats "hello"
      none none false (by decide)).1.2.2.1⟩

/-- C9: with zero installed models, both `route` and `preview` return a
decision with no selected model id, no selected model name and an empty
fallback chain, for every content string, task type and qos (and the pure
computation is total, so there is no panic). -/
theorem C9_empty_registry (policy : RuntimePolicy) (stats : LiveSystemStats)
    (content : String) (task_type qos : Option String) (is_background : Bool) :
    (route_decision [] policy stats content task_type qos
        is_background).selected_model_id = none ∧
    (route_decision [] policy stats content task_type qos
        is_background).selected_model_name = none ∧
    (route_decision [] policy stats content task_type qos
        is_background).fallback_chain = [] ∧
    (preview_decision [] policy stats content task_type qos).selected_model_id = none ∧
    (preview_decision [] policy stats content task_type qos).selected_model_name = none ∧
    (preview_decision [] policy stats content task_type qos).fallback_chain = [] := by
  have hsel : ∀ t q, select_model [] t q = none := by
    intro t q
    unfold select_model
    rw [if_pos rfl]
  have hfb : ∀ s, fallback_chain [] s = [] := fun s => rfl
  dsimp only [route_decision, preview_decision]
  simp [hsel, hfb]

/-! ### Adaptive Memory Manager (adaptive_memory_manager.rs) -/

/-- Embedding of `adaptive_memory_manager::MemoryAction`. -/
inductive MemoryAction where
  | None
  | Unloaded (path : String)
  | Loaded (path : String)
deriving Repr, DecidableEq

/-- The manager's tunable fields (thresholds and the unload cooldown, in
seconds): 0.85 / 0.65 / 85.0 / 50.0 / 30 under `new`, 90 under
`with_thresholds`. -/
structure MemConfig where
  memory_threshold_high : ℚ
  memory_threshold_low : ℚ
  cpu_threshold_high : ℚ
  cpu_threshold_low : ℚ
  unload_cooldown_secs : ℕ
deriving Repr, DecidableEq

/-- The manager's mutable state: the recorded last-unload instant (in
seconds) and the unload counter. -/
structure MemState where
  last_unload_time : Option ℕ
  total_unloads : ℕ
deriving Repr, DecidableEq

/-- One tick's inputs: the clock, the live stats read from the hardware
service, the inference engine's resident model, whether `unload_model`
succeeds, and the enabled flag. -/
structure MemInput where
  now : ℕ
  stats : LiveSystemStats
  active_model : Option String
  unload_ok : Bool
  enabled : Bool
deriving Repr, DecidableEq

/-- The memory fraction computed by `check_and_manage`
(used / total when total > 0, else 0; note: a fraction, not a percent). -/
def mem_fraction (stats : LiveSystemStats) : ℚ :=
  if 0 < stats.memory_total_mb then
    (stats.memory_used_mb : ℚ) / (stats.memory_total_mb : ℚ)
  else 0

/-- The body of `maybe_unload_model` after the cooldown gate: unload the
resident model if there is one and the engine call succeeds, recording the
timestamp and bumping the counter. -/
def attempt_unload (s : MemState) (inp : MemInput) : MemState × MemoryAction :=
  match inp.active_model with
  | some path =>
      if inp.unload_ok then
        ({ last_unload_time := some inp.now, total_unloads := s.total_unloads + 1 },
         MemoryAction.Unloaded path)
      else (s, MemoryAction.None)
  | none => (s, MemoryAction.None)

/-- Embedding of `AdaptiveMemoryManager::maybe_unload_model` (lines
102-125): a no-op while the cooldown since the last unload has not
elapsed. -/
def maybe_unload_model (cfg : MemConfig) (s : MemState) (inp : MemInput) :
    MemState × MemoryAction :=
  match s.last_unload_time with
  | some previous =>
      if inp.now - previous < cfg.unload_cooldown_secs then (s, MemoryAction.None)
      else attempt_unload s inp
  | none => attempt_unload s inp

/-- Embedding of `AdaptiveMemoryManager::maybe_load_model` (lines
127-138): both branches are deliberately no-ops (loading is coordinated
elsewhere). -/
def maybe_load_model (s : MemState) (inp : MemInput) : MemState × MemoryAction :=
  match s.last_unload_time with
  | some previous =>
      if inp.now - previous < 30 then (s, MemoryAction.None)
      else (s, MemoryAction.None)
  | none => (s, MemoryAction.None)

/-- Embedding of `AdaptiveMemoryManager::check_and_manage` (lines 74-100),
one watchdog tick. -/
def check_and_manage (cfg : MemConfig) (s : MemState) (inp : MemInput) :
    MemState × MemoryAction :=
  if inp.enabled = false then (s, MemoryAction.None)
  else if mem_fraction inp.stats ≥ cfg.memory_threshold_high ∨
      inp.stats.cpu_usage_pct ≥ cfg.cpu_threshold_high then
    maybe_unload_model cfg s inp
  else if mem_fraction inp.stats ≤ cfg.memory_threshold_low ∧
      inp.stats.cpu_usage_pct ≤ cfg.cpu_threshold_low then
    maybe_load_model s inp
  else (s, MemoryAction.None)

/-- The 15-second watchdog loop of `start_memory_monitor`, run over an
explicit list of tick inputs; returns each tick's time and action. -/
def run_manager (cfg : MemConfig) (s : MemState) :
    List MemInput → List (ℕ × MemoryAction)
  | [] => []
  | inp :: rest =>
      (inp.now, (check_and_manage cfg s inp).2) ::
        run_manager cfg (check_and_manage cfg s inp).1 rest

theorem check_none_under_cooldown (cfg : MemConfig) (s : MemState) (inp : MemInput)
    (t : ℕ) (hs : s.last_unload_time = some t)
    (hcd : inp.now - t < cfg.unload_cooldown_secs) :
    check_and_manage cfg s inp = (s, MemoryAction.None) := by
  unfold check_and_manage
  split_ifs with h1 h2 h3
  · rfl
  · unfold maybe_unload_model
    simp only [hs]
    rw [if_pos hcd]
  · unfold maybe_load_model
    simp only [hs]
    split_ifs <;> rfl
  · rfl

theorem unload_needs_cooldown (cfg : MemConfig) (s : MemState) (inp : MemInput)
    (t : ℕ) (path : String) (hs : s.last_unload_time = some t)
    (hu : (check_and_manage cfg s inp).2 = MemoryAction.Unloaded path) :
    cfg.unload_cooldown_secs ≤ inp.now - t := by
  unfold check_and_manage at hu
  split_ifs at hu with h1 h2 h3
  all_goals first
    | simp at hu
    | (unfold maybe_load_model at hu
       simp only [hs] at hu
       split_ifs at hu <;> simp at hu)
    | (unfold maybe_unload_model at hu
       simp only [hs] at hu
       split_ifs at hu with h4
       all_goals first
         | simp at hu
         | omega)

theorem step_last_bound (cfg : MemConfig) (s : MemState) (inp : MemInput) (t : ℕ)
    (hs : s.last_unload_time = some t) (hnow : t ≤ inp.now) :
    ∃ u, (check_and_manage cfg s inp).1.last_unload_time = some u ∧
      t ≤ u ∧ u ≤ inp.now := by
  unfold check_and_manage
  split_ifs with h1 h2 h3
  all_goals first
    | exact ⟨t, by simp [hs], le_refl t, hnow⟩
    | (unfold maybe_load_model
       simp only [hs]
       split_ifs <;> exact ⟨t, by simp [hs], le_refl t, hnow⟩)
    | (unfold maybe_unload_model attempt_unload
       simp only [hs]
       split_ifs with h4 h5 <;>
         rcases ham : inp.active_model with _ | path <;> simp only [ham] <;>
         first
           | exact ⟨inp.now, rfl, hnow, le_refl _⟩
           | exact ⟨t, by simp [hs], le_refl t, hnow⟩)

theorem attempt_unload_sets_last (s : MemState) (inp : MemInput) (path : String)
    (hu : (attempt_unload s inp).2 = MemoryAction.Unloaded path) :
    (attempt_unload s inp).1.last_unload_time = some inp.now := by
  unfold attempt_unload at hu ⊢
  rcases ham : inp.active_model with _ | q <;> simp only [ham] at hu ⊢
  all_goals first
    | simp at hu
    | (split_ifs at hu ⊢ <;> first | rfl | simp at hu)

theorem maybe_unload_sets_last (cfg : MemConfig) (s : MemState) (inp : MemInput)
    (path : String)
    (hu : (maybe_unload_model cfg s inp).2 = MemoryAction.Unloaded path) :
    (maybe_unload_model cfg s inp).1.last_unload_time = some inp.now := by
  unfold maybe_unload_model at hu ⊢
  rcases hl : s.last_unload_time with _ | t <;> simp only [hl] at hu ⊢
  all_goals first
    | exact attempt_unload_sets_last s inp path hu
    | (split_ifs at hu ⊢ with h4 <;>
        first
          | simp at hu
          | exact attempt_unload_sets_last s inp path hu)

theorem unload_sets_last (cfg : MemConfig) (s : MemState) (inp : MemInput)
    (path : String)
    (hu : (check_and_manage cfg s inp).2 = MemoryAction.Unloaded path) :
    (check_and_manage cfg s inp).1.last_unload_time = some inp.now := by
  unfold check_and_manage at hu ⊢
  split_ifs at hu ⊢ with h1 h2 h3
  all_goals first
    | simp at hu
    | exact maybe_unload_sets_last cfg s inp path hu
    | (unfold maybe_load_model at hu
       rcases hl : s.last_unload_time with _ | t <;> simp only [hl] at hu <;>
         first
           | simp at hu
           | (split_ifs at hu <;> simp at hu))

theorem run_no_early_unload (cfg : MemConfig) (inputs : List MemInput) :
    ∀ (s : MemState) (t : ℕ),
      s.last_unload_time = some t →
      (∀ i ∈ inputs, t ≤ i.now) →
      inputs.Pairwise (fun a b => a.now ≤ b.now) →
      ∀ p ∈ run_manager cfg s inputs, ∀ path, p.2 = MemoryAction.Unloaded path →
        t + cfg.unload_cooldown_secs ≤ p.1 := by
  induction inputs with
  | nil =>
    intro s t _ _ _ p hp
    simp [run_manager] at hp
  | cons inp rest ih =>
    intro s t hs hge hmono p hp path hpath
    rw [run_manager] at hp
    rcases List.mem_cons.mp hp with hhead | htail
    · subst hhead
      have hcd := unload_needs_cooldown cfg s inp t path hs hpath
      have hin : t ≤ inp.now := hge inp (List.mem_cons_self _ _)
      show t + cfg.unload_cooldown_secs ≤ inp.now
      omega
    · obtain ⟨u, hu, htu, hun⟩ :=
        step_last_bound cfg s inp t hs (hge inp (List.mem_cons_self _ _))
      have hge' : ∀ i ∈ rest, u ≤ i.now := by
        intro i hi
        have := (List.pairwise_cons.mp hmono).1 i hi
        omega
      have hmono' := (List.pairwise_cons.mp hmono).2
      have := ih ((check_and_manage cfg s inp).1) u hu hge' hmono' p htail path hpath
      omega

/-- C8: two conjuncts about the adaptive memory manager.  First, whenever
the cooldown since the recorded last-unload timestamp has not elapsed, a
tick of `check_and_manage` returns `MemoryAction.None` and leaves the state
untouched — under high pressure or otherwise.  Second, along any monotone
tick trace, any two ticks that report a successful unload are separated by
at least the configured cooldown, so an oscillating memory trace causes at
most one unload per cooldown window. -/
theorem C8_unload_cooldown_separation (cfg : MemConfig) :
    (∀ (s : MemState) (inp : MemInput) (t : ℕ),
      s.last_unload_time = some t →
      inp.now - t < cfg.unload_cooldown_secs →
      check_and_manage cfg s inp = (s, MemoryAction.None))
  ∧ (∀ (inputs : List MemInput) (s0 : MemState),
      inputs.Pairwise (fun a b => a.now ≤ b.now) →
      ∀ (l1 : List (ℕ × MemoryAction)) (p1 : ℕ × MemoryAction)
        (l2 : List (ℕ × MemoryAction)) (p2 : ℕ × MemoryAction)
        (l3 : List (ℕ × MemoryAction)),
      run_manager cfg s0 inputs = l1 ++ p1 :: (l2 ++ p2 :: l3) →
      (∃ path, p1.2 = MemoryAction.Unloaded path) →
      (∃ path, p2.2 = MemoryAction.Unloaded path) →
      p1.1 + cfg.unload_cooldown_secs ≤ p2.1) := by
  constructor
  · intro s inp t hs hcd
    exact check_none_under_cooldown cfg s inp t hs hcd
  · intro inputs
    induction inputs with
    | nil =>
      intro s0 _ l1 p1 l2 p2 l3 heq _ _
      have hl := congrArg List.length heq
      simp [run_manager] at hl
      omega
    | cons inp rest ih =>
      intro s0 hmono l1 p1 l2 p2 l3 heq hu1 hu2
      rw [run_manager] at heq
      cases l1 with
      | nil =>
        rw [List.nil_append] at heq
        have hp1 : (inp.now, (check_and_manage cfg s0 inp).2) = p1 :=
          (List.cons.injEq _ _ _ _ ▸ heq : _ ∧ _).1
        have hrest : run_manager cfg (check_and_manage cfg s0 inp).1 rest =
            l2 ++ p2 :: l3 :=
          (List.cons.injEq _ _ _ _ ▸ heq : _ ∧ _).2
        obtain ⟨path1, hpath1⟩ := hu1
        obtain ⟨path2, hpath2⟩ := hu2
        rw [← hp1] at hpath1
        have hlast := unload_sets_last cfg s0 inp path1 hpath1
        have hge' : ∀ i ∈ rest, inp.now ≤ i.now :=
          (List.pairwise_cons.mp hmono).1
        have hmono' := (List.pairwise_cons.mp hmono).2
        have hmem : p2 ∈ run_manager cfg (check_and_manage cfg s0 inp).1 rest := by
          rw [hrest]
          exact List.mem_append.mpr (Or.inr (List.mem_cons_self _ _))
        have hfar := run_no_early_unload cfg rest (check_and_manage cfg s0 inp).1
          inp.now hlast hge' hmono' p2 hmem path2 hpath2
        rw [← hp1]
        exact hfar
      | cons q l1' =>
        rw [List.cons_append] at heq
        have hrest : run_manager cfg (check_and_manage cfg s0 inp).1 rest =
            l1' ++ p1 :: (l2 ++ p2 :: l3) :=
          (List.cons.injEq _ _ _ _ ▸ heq : _ ∧ _).2
        exact ih (check_and_manage cfg s0 inp).1
          (List.pairwise_cons.mp hmono).2 l1' p1 l2 p2 l3 hrest hu1 hu2

/-- Witness configuration: cooldown 30 s, cpu-driven pressure thresholds
(integer-valued so concrete runs evaluate in the kernel). -/
def w8Config : MemConfig where
  memory_threshold_high := 1
  memory_threshold_low := 0
  cpu_threshold_high := 85
  cpu_threshold_low := 50
  unload_cooldown_secs := 30

/-- Witness stats: cpu at 90 % keeps the manager in the high-pressure
band on every tick. -/
def w8Stats : LiveSystemStats where
  cpu_usage_pct := 90
  memory_used_mb := 0
  memory_total_mb := 0

/-- Witness tick input at a given clock value. -/
def w8Input (n : ℕ) : MemInput where
  now := n
  stats := w8Stats
  active_model := some "m"
  unload_ok := true
  enabled := true

/-- Witness for C8: three high-pressure ticks at 0 s, 15 s and 30 s unload
at 0 s, are blocked by the cooldown at 15 s, and unload again only at
30 s — exactly one cooldown apart. -/
theorem C8_witness :
    ([w8Input 0, w8Input 15, w8Input 30].Pairwise (fun a b => a.now ≤ b.now)) ∧
    run_manager w8Config ⟨none, 0⟩ [w8Input 0, w8Input 15, w8Input 30] =
      [] ++ (0, MemoryAction.Unloaded "m") ::
        ([(15, MemoryAction.None)] ++ (30, MemoryAction.Unloaded "m") :: []) ∧
    (0, MemoryAction.Unloaded "m").1 + w8Config.unload_cooldown_secs ≤
      (30, MemoryAction.Unloaded "m").1 :=
  ⟨by decide, by decide,
   (C8_unload_cooldown_separation w8Config).2 [w8Input 0, w8Input 15, w8Input 30]
     ⟨none, 0⟩ (by decide) [] (0, MemoryAction.Unloaded "m")
     [(15, MemoryAction.None)] (30, MemoryAction.Unloaded "m") [] (by decide)
     ⟨"m", rfl⟩ ⟨"m", rfl⟩⟩

/-! ### Smart query classifier (smart_query_classifier.rs) -/

/-- Embedding of `smart_query_classifier::QueryCategory`. -/
inductive QueryCategory where
  | Simple
  | Medium
  | Complex
  | Code
  | Math
  | Creative
  | Analytical
  | Summarization
  | Translation
deriving Repr, DecidableEq

/-- All nine categories (the key space of the score `HashMap`). -/
def allCategories : List QueryCategory :=
  [QueryCategory.Simple, QueryCategory.Medium, QueryCategory.Complex,
   QueryCategory.Code, QueryCategory.Math, QueryCategory.Creative,
   QueryCategory.Analytical, QueryCategory.Summarization,
   QueryCategory.Translation]

/-- The keyword set scored for Code (weight 2.0). -/
def kwCode : List String :=
  ["debug", "error", "stack", "trace", "function", "class", "compile",
   "refactor", "rust", "typescript", "python", "java"]

/-- The keyword set scored for Math (weight 1.8). -/
def kwMath : List String :=
  ["calculate", "equation", "integral", "derivative", "matrix",
   "probability", "statistics", "solve"]

/-- The keyword set scored for Analytical (weight 1.4). -/
def kwAnalytical : List String :=
  ["analyze", "evaluate", "compare", "tradeoff", "reason", "architecture",
   "strategy", "optimize"]

/-- The keyword set scored for Creative (weight 1.2). -/
def kwCreative : List String :=
  ["story", "poem", "creative", "imagine", "compose", "draft", "brainstorm"]

/-- The keyword set scored for Summarization (weight 3.0). -/
def kwSummarization : List String :=
  ["summarize", "summary", "tldr", "tl;dr", "in short", "brief", "outline"]

/-- The keyword set scored for Translation (weight 2.5). -/
def kwTranslation : List String :=
  ["translate", "in spanish", "in french", "in german", "in english",
   "meaning of"]

/-- Number of keywords of a set contained in the (lowercased) query, as in
`score_keywords`. -/
def keywordMatches (q : String) (kws : List String) : ℕ :=
  (kws.filter (fun kw => strContains q kw)).length

/-- The structural code heuristic of `classify`: code fences, fat arrows,
path separators, or Rust keywords surrounded by spaces. -/
def code_structural_bonus (q : String) : Bool :=
  strContains q "```" || strContains q "=>" || strContains q "::" ||
    strContains q " fn " || strContains q " let "

/-- The operator-density heuristic of `classify`: at least three of
`+ - * / =` in the original query. -/
def math_symbol_heavy (query : String) : Bool :=
  decide (3 ≤ (query.data.filter
    (fun c => c == '+' || c == '-' || c == '*' || c == '/' || c == '=')).length)

/-- Word counter for `split_whitespace().count()`. -/
def wordCountAux : List Char → Bool → ℕ
  | [], _ => 0
  | c :: rest, inWord =>
      if c.isWhitespace then wordCountAux rest false
      else (if inWord then 0 else 1) + wordCountAux rest true

/-- Word count of the original query, as `split_whitespace().count()`. -/
def word_count (query : String) : ℕ := wordCountAux query.data false

/-- Does `classify` create a `HashMap` entry for this category on this
query?  (`score_keywords` inserts only on a positive match count; the
structural bonuses and the word-count buckets use `or_insert`.) -/
def inserted (query : String) : QueryCategory → Bool
  | QueryCategory.Code =>
      decide (0 < keywordMatches (lowerStr query) kwCode) ||
        code_structural_bonus (lowerStr query)
  | QueryCategory.Math =>
      decide (0 < keywordMatches (lowerStr query) kwMath) ||
        math_symbol_heavy query
  | QueryCategory.Analytical =>
      decide (0 < keywordMatches (lowerStr query) kwAnalytical)
  | QueryCategory.Creative =>
      decide (0 < keywordMatches (lowerStr query) kwCreative)
  | QueryCategory.Summarization =>
      decide (0 < keywordMatches (lowerStr query) kwSummarization)
  | QueryCategory.Translation =>
      decide (0 < keywordMatches (lowerStr query) kwTranslation)
  | QueryCategory.Simple => decide (word_count query < 10)
  | QueryCategory.Complex => decide (80 < word_count query)
  | QueryCategory.Medium =>
      decide (35 < word_count query ∧ word_count query ≤ 80)

/-- The f32 score each inserted category carries (exact rationals: keyword
weight times match count, plus the structural bonuses). -/
def scoreOf (query : String) : QueryCategory → ℚ
  | QueryCategory.Code =>
      (keywordMatches (lowerStr query) kwCode : ℚ) * 2 +
        (if code_structural_bonus (lowerStr query) then 3 else 0)
  | QueryCategory.Math =>
      (keywordMatches (lowerStr query) kwMath : ℚ) * (9/5) +
        (if math_symbol_heavy query then 2 else 0)
  | QueryCategory.Analytical =>
      (keywordMatches (lowerStr query) kwAnalytical : ℚ) * (7/5)
  | QueryCategory.Creative =>
      (keywordMatches (lowerStr query) kwCreative : ℚ) * (6/5)
  | QueryCategory.Summarization =>
      (keywordMatches (lowerStr query) kwSummarization : ℚ) * 3
  | QueryCategory.Translation =>
      (keywordMatches (lowerStr query) kwTranslation : ℚ) * (5/2)
  | QueryCategory.Simple => 1
  | QueryCategory.Complex => 2
  | QueryCategory.Medium => 1

/-- Rust's `Iterator::max_by` over the score entries: ties keep the later
element of the iteration order. -/
def pickMax (query : String) (h : QueryCategory) (t : List QueryCategory) :
    QueryCategory :=
  t.foldl (fun acc c => if scoreOf query acc ≤ scoreOf query c then c else acc) h

/-- Embedding of `SmartQueryClassifier::classify` (lines 83-229),
parametrised by the iteration order of the score `HashMap` (any
permutation of the nine keys; the map holds exactly the inserted ones).
The rolling history is not an argument: the Rust method only appends to it
after the category is computed. -/
def classifyWith (query : String) (order : List QueryCategory) : QueryCategory :=
  match order.filter (inserted query) with
  | [] =>
      if word_count query < 8 then QueryCategory.Simple else QueryCategory.Medium
  | h :: t => pickMax query h t

theorem pickMax_mem (q : String) :
    ∀ (t : List QueryCategory) (h : QueryCategory), pickMax q h t ∈ h :: t := by
  intro t
  induction t with
  | nil =>
    intro h
    simp [pickMax]
  | cons c t ih =>
    intro h
    rw [pickMax, List.foldl_cons]
    have hm := ih (if scoreOf q h ≤ scoreOf q c then c else h)
    rw [pickMax] at hm
    rcases List.mem_cons.mp hm with h1 | h1
    · rw [h1]
      split_ifs
      · exact List.mem_cons_of_mem _ (List.mem_cons_self _ _)
      · exact List.mem_cons_self _ _
    · exact List.mem_cons_of_mem _ (List.mem_cons_of_mem _ h1)

theorem pickMax_ge (q : String) :
    ∀ (t : List QueryCategory) (h d : QueryCategory), d ∈ h :: t →
      scoreOf q d ≤ scoreOf q (pickMax q h t) := by
  intro t
  induction t with
  | nil =>
    intro h d hd
    rcases List.mem_cons.mp hd with h1 | h1
    · rw [h1]
      simp [pickMax]
    · simp at h1
  | cons c t ih =>
    intro h d hd
    rw [pickMax, List.foldl_cons]
    have hstep_left : scoreOf q h ≤
        scoreOf q (if scoreOf q h ≤ scoreOf q c then c else h) := by
      split_ifs with hsc
      · exact hsc
      · exact le_refl _
    have hstep_right : scoreOf q c ≤
        scoreOf q (if scoreOf q h ≤ scoreOf q c then c else h) := by
      split_ifs with hsc
      · exact le_refl _
      · exact le_of_not_le hsc
    have ihs := ih (if scoreOf q h ≤ scoreOf q c then c else h)
    simp only [pickMax] at ihs
    rcases List.mem_cons.mp hd with h1 | h1
    · rw [h1]
      exact le_trans hstep_left (ihs _ (List.mem_cons_self _ _))
    · rcases List.mem_cons.mp h1 with h2 | h2
      · rw [h2]
        exact le_trans hstep_right (ihs _ (List.mem_cons_self _ _))
      · exact ihs d (List.mem_cons_of_mem _ h2)

theorem classifyWith_unique_max (query : String) (o : List QueryCategory)
    (ho : o.Perm allCategories) (c : QueryCategory)
    (hc : inserted query c = true)
    (huniq : ∀ d, inserted query d = true → d ≠ c →
      scoreOf query d < scoreOf query c) :
    classifyWith query o = c := by
  have hcall : c ∈ allCategories := by cases c <;> simp [allCategories]
  have hco : c ∈ o := ho.mem_iff.mpr hcall
  have hcf : c ∈ o.filter (inserted query) := List.mem_filter.mpr ⟨hco, hc⟩
  rcases hft : o.filter (inserted query) with _ | ⟨h, t⟩
  · rw [hft] at hcf
    simp at hcf
  · have hcw : classifyWith query o = pickMax query h t := by
      unfold classifyWith
      rw [hft]
    have hmem : pickMax query h t ∈ h :: t := pickMax_mem query t h
    have hmem' : pickMax query h t ∈ o.filter (inserted query) := by
      rw [hft]
      exact hmem
    have hins : inserted query (pickMax query h t) = true :=
      (List.mem_filter.mp hmem').2
    rw [hft] at hcf
    have hge : scoreOf query c ≤ scoreOf query (pickMax query h t) :=
      pickMax_ge query t h c hcf
    by_cases heq : pickMax query h t = c
    · rw [hcw, heq]
    · exact absurd hge (not_le.mpr (huniq _ hins heq))

/-- C5 (amended): the category returned by `classify` depends only on the
query text and the iteration order of the internal score map — never on
the rolling classification history; and whenever a single category attains
the strictly largest score, any two iteration orders (any two evaluations)
return that same category.  (On exact score ties the result can differ
between evaluations; see the counterexample.) -/
theorem C5_classify_deterministic_on_unique_max (query : String)
    (o1 o2 : List QueryCategory) (h1 : o1.Perm allCategories)
    (h2 : o2.Perm allCategories) (c : QueryCategory)
    (hc : inserted query c = true)
    (huniq : ∀ d, inserted query d = true → d ≠ c →
      scoreOf query d < scoreOf query c) :
    classifyWith query o1 = c ∧ classifyWith query o2 = c :=
  ⟨classifyWith_unique_max query o1 h1 c hc huniq,
   classifyWith_unique_max query o2 h2 c hc huniq⟩

/-- The tie query: one Code keyword (score 2.0) and three `+` operators
(Math score 2.0), eleven words, nothing else. -/
def c5Query : String := "debug + + + aa bb cc dd ee ff gg"

/-- The category order with Code and Math swapped: another possible
`HashMap` iteration order. -/
def swappedCategories : List QueryCategory :=
  [QueryCategory.Simple, QueryCategory.Medium, QueryCategory.Complex,
   QueryCategory.Math, QueryCategory.Code, QueryCategory.Creative,
   QueryCategory.Analytical, QueryCategory.Summarization,
   QueryCategory.Translation]

/-- C5 counterexample: on the tie query the two iteration orders — both
permutations of the same key set — return different categories (Math
vs. Code), so `classify` is not a function of the text alone: its result
on ties depends on the `HashMap`'s randomized iteration order, which is
fresh program state on every call. -/
theorem C5_counterexample :
    swappedCategories.Perm allCategories ∧
    classifyWith c5Query allCategories ≠ classifyWith c5Query swappedCategories := by
  constructor
  · decide
  · have hf1 : allCategories.filter (inserted c5Query) =
        [QueryCategory.Code, QueryCategory.Math] := by decide
    have hf2 : swappedCategories.filter (inserted c5Query) =
        [QueryCategory.Math, QueryCategory.Code] := by decide
    have hk1 : keywordMatches (lowerStr c5Query) kwCode = 1 := by decide
    have hk2 : code_structural_bonus (lowerStr c5Query) = false := by decide
    have hk3 : keywordMatches (lowerStr c5Query) kwMath = 0 := by decide
    have hk4 : math_symbol_heavy c5Query = true := by decide
    have hsCode : scoreOf c5Query QueryCategory.Code = 2 := by
      simp only [scoreOf, hk1, hk2]
      norm_num
    have hsMath : scoreOf c5Query QueryCategory.Math = 2 := by
      simp only [scoreOf, hk3, hk4]
      norm_num
    have e1 : classifyWith c5Query allCategories = QueryCategory.Math := by
      unfold classifyWith
      rw [hf1]
      show pickMax c5Query QueryCategory.Code [QueryCategory.Math] = _
      unfold pickMax
      rw [List.foldl_cons, List.foldl_nil,
        if_pos (by rw [hsCode, hsMath] : scoreOf c5Query QueryCategory.Code ≤
          scoreOf c5Query QueryCategory.Math)]
    have e2 : classifyWith c5Query swappedCategories = QueryCategory.Code := by
      unfold classifyWith
      rw [hf2]
      show pickMax c5Query QueryCategory.Math [QueryCategory.Code] = _
      unfold pickMax
      rw [List.foldl_cons, List.foldl_nil,
        if_pos (by rw [hsMath, hsCode] : scoreOf c5Query QueryCategory.Math ≤
          scoreOf c5Query QueryCategory.Code)]
    rw [e1, e2]
    decide

/-- A query whose score map holds a single entry (Code): eleven words, one
Code keyword, no operators, no other keyword. -/
def w5Query : String := "debug the widget jam quickly before lunch with two keen cats"

/-- Witness for C5: on the single-entry query both iteration orders return
Code. -/
theorem C5_witness :
    allCategories.Perm allCategories ∧
    swappedCategories.Perm allCategories ∧
    inserted w5Query QueryCategory.Code = true ∧
    classifyWith w5Query allCategories = QueryCategory.Code ∧
    classifyWith w5Query swappedCategories = QueryCategory.Code :=
  ⟨List.Perm.refl _, by decide, by decide,
   (C5_classify_deterministic_on_unique_max w5Query allCategories swappedCategories
      (List.Perm.refl _) (by decide) QueryCategory.Code (by decide)
      (by
        intro d hd hne
        cases d <;> first
          | exact absurd rfl hne
          | exact absurd hd (by decide))).1,
   (C5_classify_deterministic_on_unique_max w5Query allCategories swappedCategories
      (List.Perm.refl _) (by decide) QueryCategory.Code (by decide)
      (by
        intro d hd hne
        cases d <;> first
          | exact absurd rfl hne
          | exact absurd hd (by decide))).2⟩
